import Mathlib

/-!
Verification of the viewport-triggered reveal / deferred-resource-loading
orchestrator of the landing-page repository.

The definitions below are a shallow embedding of the JavaScript source:

* the lazy-loading module (class LazyLoader: loadImage, loadImageWithRetry,
  loadImageSource, onImageLoaded, onImageError, observeImages,
  setupMutationObserver, loadImageNow, destroy);
* the performance-module loader (performance.js LazyLoader.loadImage);
* the animations module (class AnimationManager: animateElement,
  handleIntersection) and the feature-card scroll animation of features.js;
* the workflow module (class WorkflowAnimationController: constructor,
  _checkReducedMotion, _init, _triggerStepAnimations, _animateStep,
  _skipAnimations, destroy, and initWorkflowAnimations).

Machine integers of the source are modelled as Nat (all quantities involved
are non-negative and no overflow is reachable at the constants used).
Asynchronous callbacks are modelled by explicit state passing: each DOM /
timer callback becomes a function from state to state, and a run of the
event loop becomes a fold over a list of events.
-/

/-! ## Lazy-loading module: retry with exponential backoff -/

/-- this.maxRetries = 3 in the LazyLoader constructor. -/
def maxRetries : Nat := 3

/-- The base of the backoff delay: 1000 ms in loadImageWithRetry. -/
def backoffBase : Nat := 1000

/-- The ceiling of the backoff delay: 5000 ms in loadImageWithRetry. -/
def backoffCeiling : Nat := 5000

/-- delay = Math.min(1000 * Math.pow(2, attempts), 5000), where attempts is
the retry counter read at the start of loadImageWithRetry. -/
def backoffDelay (attempts : Nat) : Nat :=
  min (backoffBase * 2 ^ attempts) backoffCeiling

/-- LazyLoader.loadImageWithRetry, driven by an oracle: the list gives the
success flag of each successive materialization attempt (true = the
loadImageSource promise resolves).  The first argument is the retry counter
this.retryAttempts.get(img) || 0 at entry.  Result: the list of waits the
code inserts (one before each retry), the number of materialization
attempts performed, and whether the whole call resolves. -/
def loadImageWithRetry : Nat → List Bool → List Nat × Nat × Bool
  | _, [] => ([], 0, false)
  | attempts, ok :: rest =>
    if ok then ([], 1, true)
    else if attempts < maxRetries then
      let r := loadImageWithRetry (attempts + 1) rest
      (backoffDelay attempts :: r.1, r.2.1 + 1, r.2.2)
    else ([], 1, false)

/-! ## Lazy-loading module: per-element state -/

/-- The observable state the LazyLoader keeps for one img element:
the data-src / data-srcset attributes, membership in this.loadedImages
(set only by onImageLoaded), whether the intersection observer still
watches it, the four CSS state classes, and the number of
loadImageWithRetry invocations currently in flight for it. -/
structure LoadState where
  hasDataSrc : Bool
  hasDataSrcset : Bool
  inLoadedImages : Bool
  observedFlag : Bool
  placeholderClass : Bool
  loadingClass : Bool
  loadedClass : Bool
  errorClass : Bool
  inFlight : Nat
deriving DecidableEq, Repr

/-- The synchronous prefix of LazyLoader.loadImage, up to the await:
return immediately when this.loadedImages.has(img); otherwise unobserve,
swap the placeholder class for the loading class and start one
materialization (loadImageWithRetry) for the element. -/
def loadImage (s : LoadState) : LoadState :=
  if s.inLoadedImages then s
  else
    { s with observedFlag := false, placeholderClass := false,
             loadingClass := true, inFlight := s.inFlight + 1 }

/-- LazyLoader.onImageLoaded: record the element in this.loadedImages,
remove the loading class and add the loaded class.  The error class is not
touched by the source.  The pending materialization has completed. -/
def onImageLoaded (s : LoadState) : LoadState :=
  { s with inLoadedImages := true, loadingClass := false,
           loadedClass := true, inFlight := s.inFlight - 1 }

/-- LazyLoader.onImageError: remove the loading class and add the error
class.  The pending materialization has completed. -/
def onImageError (s : LoadState) : LoadState :=
  { s with loadingClass := false, errorClass := true,
           inFlight := s.inFlight - 1 }

/-- LazyLoader.loadImageSource as a success predicate: the promise rejects
outright when the element has neither data-src nor data-srcset, and
otherwise resolves exactly when the underlying fetch succeeds. -/
def loadImageSource (hasDataSrc hasDataSrcset netOk : Bool) : Bool :=
  (hasDataSrc || hasDataSrcset) && netOk

/-- A complete run of LazyLoader.loadImage for an element whose retry
counter is absent at entry (the state of every element on its first load):
the guard, then loadImageWithRetry over the given network outcomes, then
onImageLoaded or onImageError.  Returns the final element state and the
number of materialization attempts performed. -/
def loadImageRun (s : LoadState) (net : List Bool) : LoadState × Nat :=
  if s.inLoadedImages then (s, 0)
  else
    let r := loadImageWithRetry 0
      (net.map (loadImageSource s.hasDataSrc s.hasDataSrcset))
    (if r.2.2 then onImageLoaded (loadImage s) else onImageError (loadImage s), r.2.1)

/-- A freshly observed img element carrying a data-src attribute. -/
def freshImage : LoadState :=
  { hasDataSrc := true, hasDataSrcset := false, inLoadedImages := false,
    observedFlag := true, placeholderClass := true, loadingClass := false,
    loadedClass := false, errorClass := false, inFlight := 0 }

/-- An observed img element with neither data-src nor data-srcset. -/
def noRefImage : LoadState :=
  { freshImage with hasDataSrc := false, hasDataSrcset := false }

/-- The number of the state classes lazy-loading, lazy-loaded, lazy-error
present on the element. -/
def flagCount (s : LoadState) : Nat :=
  s.loadingClass.toNat + s.loadedClass.toNat + s.errorClass.toNat

/-- At most one of the loading / loaded / errored flags is set. -/
def mutexFlags (s : LoadState) : Prop := flagCount s ≤ 1

instance (s : LoadState) : Decidable (mutexFlags s) := by
  unfold mutexFlags; infer_instance

/-! ## Animations module: AnimationManager -/

/-- The state of the AnimationManager that the claims touch: the
animatedElements set, the set of elements currently observed by the
intersection observer, and the elements carrying the is-visible class.
Elements are identified by a stable Nat identity. -/
structure AnimationManager where
  animatedElements : List Nat
  observed : List Nat
  visible : List Nat
deriving DecidableEq, Repr

/-- AnimationManager.animateElement: skip if already animated; otherwise
add the visible class, record the element in animatedElements and
unobserve it (observer.unobserve removes it from the observation set).
The Bool reports whether the reveal fired. -/
def animateElement (s : AnimationManager) (e : Nat) : AnimationManager × Bool :=
  if e ∈ s.animatedElements then (s, false)
  else
    ({ animatedElements := e :: s.animatedElements,
       observed := s.observed.filter (fun y => y ≠ e),
       visible := e :: s.visible }, true)

/-- A run of handleIntersection over a list of entering entries: each
event for an element invokes animateElement on it. -/
def runIntersections (s : AnimationManager) : List Nat → AnimationManager
  | [] => s
  | x :: rest => runIntersections (animateElement s x).1 rest

/-- How many times the reveal (the visible-class addition) fires for
element e over a run of entering events starting from state s. -/
def revealCount (s : AnimationManager) (evts : List Nat) (e : Nat) : Nat :=
  match evts with
  | [] => 0
  | x :: rest =>
    (if (animateElement s x).2 = true ∧ x = e then 1 else 0)
      + revealCount (animateElement s x).1 rest e

/-- The AnimationManager state right after prepareElements observed the
registered elements: nothing animated yet, all registered observed. -/
def initAnimationManager (regs : List Nat) : AnimationManager :=
  { animatedElements := [], observed := regs, visible := [] }

/-! ## features.js: initializeScrollAnimations card observer -/

/-- The feature-card observer state of features.js: the cards still
observed and the cards whose reveal has been scheduled. -/
structure FeatureCards where
  observed : List Nat
  visible : List Nat
deriving DecidableEq, Repr

/-- One entering intersection entry for card x in features.js: the
platform delivers entries only for observed targets; on entry the reveal
is scheduled and the card is unobserved at once, so it cannot re-fire. -/
def cardIntersection (s : FeatureCards) (x : Nat) : FeatureCards × Bool :=
  if x ∈ s.observed then
    ({ observed := s.observed.filter (fun y => y ≠ x),
       visible := x :: s.visible }, true)
  else (s, false)

/-- How many times card e is revealed over a run of entering events. -/
def cardRevealCount (s : FeatureCards) (evts : List Nat) (e : Nat) : Nat :=
  match evts with
  | [] => 0
  | x :: rest =>
    (if (cardIntersection s x).2 = true ∧ x = e then 1 else 0)
      + cardRevealCount (cardIntersection s x).1 rest e

/-! ## Workflow module: WorkflowAnimationController -/

/-- STEP_ANIMATION_DELAY = 200 ms between step animations. -/
def STEP_ANIMATION_DELAY : Nat := 200

/-- CONNECTOR_ANIMATION_DELAY = 150 ms for the connector animation. -/
def CONNECTOR_ANIMATION_DELAY : Nat := 150

/-- The wall-clock schedule _animateStep produces for one step invoked at
time now: the step reveals at now, and when the step has a connector at
its index the connector activates CONNECTOR_ANIMATION_DELAY later. -/
structure StepSchedule where
  stepTime : Nat
  connectorTime : Option Nat
deriving DecidableEq, Repr

/-- The schedule part of _animateStep for step index, invoked at time now,
with numConnectors connectors present in the section. -/
def animateStepSchedule (numConnectors index now : Nat) : StepSchedule :=
  { stepTime := now,
    connectorTime :=
      if index < numConnectors then some (now + CONNECTOR_ANIMATION_DELAY)
      else none }

/-- _triggerStepAnimations: for each step ordinal i of the steps array
snapshotted at construction, setTimeout schedules _animateStep at
i * STEP_ANIMATION_DELAY. -/
def triggerStepAnimations (numSteps numConnectors : Nat) : List StepSchedule :=
  (List.range numSteps).map
    (fun i => animateStepSchedule numConnectors i (i * STEP_ANIMATION_DELAY))

/-- The WorkflowAnimationController state the claims touch: one visibility
flag and one animated flag per step, one active flag per connector, the
isAnimating / hasAnimated / prefersReducedMotion flags, whether the
intersection observer was built, and how many timers are pending. -/
structure WorkflowState where
  stepsVisible : List Bool
  stepsAnimated : List Bool
  connectorsActive : List Bool
  isAnimating : Bool
  hasAnimated : Bool
  prefersReducedMotion : Bool
  observerAlive : Bool
  pendingTimeoutCount : Nat
deriving DecidableEq, Repr

/-- _skipAnimations: add the visible and animated classes to every step,
activate every connector, set hasAnimated and clear isAnimating.  Pending
timers are not cancelled by the source. -/
def skipAnimations (s : WorkflowState) : WorkflowState :=
  { s with stepsVisible := s.stepsVisible.map (fun _ => true),
           stepsAnimated := s.stepsAnimated.map (fun _ => true),
           connectorsActive := s.connectorsActive.map (fun _ => true),
           hasAnimated := true, isAnimating := false }

/-- The WorkflowAnimationController constructor followed by _init for a
section with numSteps steps and numConnectors connectors: when the static
kill-switch class or the reduced-motion preference is present,
_skipAnimations runs at once and no observer or timer is created;
otherwise the intersection observer is set up and everything stays
pending. -/
def constructWorkflow (numSteps numConnectors : Nat)
    (staticFlag reducedMotion : Bool) : WorkflowState :=
  let s0 : WorkflowState :=
    { stepsVisible := List.replicate numSteps false,
      stepsAnimated := List.replicate numSteps false,
      connectorsActive := List.replicate numConnectors false,
      isAnimating := false, hasAnimated := false,
      prefersReducedMotion := reducedMotion,
      observerAlive := false, pendingTimeoutCount := 0 }
  if staticFlag then skipAnimations s0
  else if reducedMotion then skipAnimations s0
  else { s0 with observerAlive := true }

/-- The media-query change listener installed by _checkReducedMotion:
update prefersReducedMotion; when it became true while the run is
animating, _skipAnimations completes everything at once. -/
def motionChange (s : WorkflowState) (matchesNow : Bool) : WorkflowState :=
  let s1 := { s with prefersReducedMotion := matchesNow }
  if matchesNow && s1.isAnimating then skipAnimations s1 else s1

/-- The data initWorkflowAnimations reads off a found workflow section. -/
structure WorkflowSection where
  numSteps : Nat
  numConnectors : Nat
  staticFlag : Bool
  reducedMotion : Bool
deriving DecidableEq, Repr

/-- new WorkflowAnimationController(section): throws the given message for
a missing (null / undefined) section, and otherwise runs the constructor
body, which completes without throwing. -/
def workflowControllerNew (sec : Option WorkflowSection) :
    Except String WorkflowState :=
  match sec with
  | none => Except.error ("Workflow section element is required")
  | some sec =>
    Except.ok (constructWorkflow sec.numSteps sec.numConnectors
      sec.staticFlag sec.reducedMotion)

/-- initWorkflowAnimations: warn and return null when the section is not
found; otherwise construct the controller inside try / catch, returning
null instead of propagating any construction error. -/
def initWorkflowAnimationsModel (found : Option WorkflowSection) :
    Option WorkflowState :=
  match found with
  | none => none
  | some sec =>
    match workflowControllerNew (some sec) with
    | Except.ok c => some c
    | Except.error _ => none

/-! ## Lazy-loading module: lifecycle, destroy and the content watcher -/

/-- The LazyLoader lifecycle state the teardown claims touch: whether
this.observer is non-null, whether the MutationObserver created in
setupMutationObserver is still connected (it lives only in a local
variable there), the size of this.images, the number of pending setTimeout
timers created by sleep (never tracked by the source), and one element of
interest. -/
structure LazyLoaderState where
  observerAlive : Bool
  mutationObserverConnected : Bool
  trackedCount : Nat
  pendingSleepTimers : Nat
  img : LoadState
deriving DecidableEq, Repr

/-- LazyLoader.destroy: disconnect and null this.observer, clear
this.images and replace the loadedImages / retryAttempts WeakMaps.  The
MutationObserver is not disconnected (no reference to it is kept) and the
sleep timers are not cleared (their ids are never stored). -/
def LazyLoaderState.destroy (s : LazyLoaderState) : LazyLoaderState :=
  { s with observerAlive := false, trackedCount := 0,
           img := { s.img with inLoadedImages := false } }

/-- The MutationObserver callback branch for a directly inserted element
node matching img[data-src], img[data-srcset]: this.images.add(node) then
this.observer.observe(node).  When the loader was destroyed the observer
is null, so the observe call throws a TypeError; a disconnected observer
would deliver nothing at all. -/
def mutationCallbackNode (s : LazyLoaderState) (nodeMatchesSel : Bool) :
    Except String LazyLoaderState :=
  if s.mutationObserverConnected = false then Except.ok s
  else if nodeMatchesSel then
    if s.observerAlive then Except.ok { s with trackedCount := s.trackedCount + 1 }
    else Except.error ("TypeError: Cannot read properties of null")
  else Except.ok s

/-- Resumption of a backoff sleep that was pending when destroy ran: the
timer was never cancelled, so loadImageWithRetry resumes; destroy replaced
the retryAttempts WeakMap, so the counter reads 0, and the completion
callbacks onImageLoaded / onImageError mutate the element as usual. -/
def backoffResume (s : LazyLoaderState) (net : List Bool) : LazyLoaderState :=
  let r := loadImageWithRetry 0
    (net.map (loadImageSource s.img.hasDataSrc s.img.hasDataSrcset))
  { s with pendingSleepTimers := s.pendingSleepTimers - 1,
           img := if r.2.2 then onImageLoaded s.img else onImageError s.img }

/-- A loader mid-backoff: one element loading with a sleep timer pending. -/
def midBackoffState : LazyLoaderState :=
  { observerAlive := true, mutationObserverConnected := true,
    trackedCount := 1, pendingSleepTimers := 1,
    img := { freshImage with
             observedFlag := false, placeholderClass := false,
             loadingClass := true, inFlight := 1 } }

/-! ## Lazy-loading module: registration bookkeeping of the content watcher -/

/-- The registration bookkeeping of the LazyLoader: this.images (a Set),
plus instrumentation recording every observer.observe call and every
applyPlaceholder call in order. -/
structure MutationWatch where
  images : List Nat
  observeCalls : List Nat
  placeholderCalls : List Nat
deriving DecidableEq, Repr

/-- Set.prototype.add semantics for this.images. -/
def addToImages (imgs : List Nat) (n : Nat) : List Nat :=
  if n ∈ imgs then imgs else n :: imgs

/-- LazyLoader.observeImages: for each matching document image, only when
this.images does not yet hold it, add it, observe it and apply the
placeholder. -/
def observeImages (s : MutationWatch) (docImages : List Nat) : MutationWatch :=
  docImages.foldl
    (fun st img =>
      if img ∈ st.images then st
      else
        { images := addToImages st.images img,
          observeCalls := st.observeCalls ++ [img],
          placeholderCalls := st.placeholderCalls ++ [img] })
    s

/-- The MutationObserver callback of setupMutationObserver for one added
element node: when the node itself matches the selector it is added,
observed and given a placeholder unconditionally; each matching nested
descendant is guarded by a this.images.has check first. -/
def mutationAdded (s : MutationWatch) (node : Nat) (nodeMatchesSel : Bool)
    (nested : List Nat) : MutationWatch :=
  let s1 :=
    if nodeMatchesSel then
      { images := addToImages s.images node,
        observeCalls := s.observeCalls ++ [node],
        placeholderCalls := s.placeholderCalls ++ [node] }
    else s
  nested.foldl
    (fun st img =>
      if img ∈ st.images then st
      else
        { images := addToImages st.images img,
          observeCalls := st.observeCalls ++ [img],
          placeholderCalls := st.placeholderCalls ++ [img] })
    s1

/-- An empty registration state. -/
def emptyWatch : MutationWatch :=
  { images := [], observeCalls := [], placeholderCalls := [] }

/-! ## performance.js loader -/

/-- The element state of the performance-module LazyLoader. -/
structure PerfImage where
  hasDataSrc : Bool
  hasDataSrcset : Bool
  loadingClass : Bool
  loadedClass : Bool
  errorClass : Bool
deriving DecidableEq, Repr

/-- performance.js LazyLoader.loadImage, synchronous part: when neither
data-src nor data-srcset is present it warns and returns before touching
any class; otherwise it adds the loading class and starts the fetch.  The
Bool reports whether a fetch was started. -/
def perfLoadImage (s : PerfImage) : PerfImage × Bool :=
  if !s.hasDataSrc && !s.hasDataSrcset then (s, false)
  else ({ s with loadingClass := true }, true)

/-! ## Concrete states used by witnesses -/

/-- A workflow controller in the middle of a staggered run. -/
def animatingState : WorkflowState :=
  { stepsVisible := [true, false, false], stepsAnimated := [false, false, false],
    connectorsActive := [false, false], isAnimating := true, hasAnimated := true,
    prefersReducedMotion := false, observerAlive := true,
    pendingTimeoutCount := 3 }

/-- A performance-module element with no deferred-resource reference. -/
def noRefPerfImage : PerfImage :=
  { hasDataSrc := false, hasDataSrcset := false, loadingClass := false,
    loadedClass := false, errorClass := false }

/-! ## Backoff lemmas -/

/-- The backoff delay is monotone in the completed-attempt count. -/
lemma backoffDelay_mono {a b : Nat} (h : a ≤ b) :
    backoffDelay a ≤ backoffDelay b := by
  unfold backoffDelay
  exact min_le_min
    (Nat.mul_le_mul_left _ (Nat.pow_le_pow_right (by norm_num) h)) le_rfl

/-- The wait at index i of a retry run entered with counter a is the
backoff delay for completed-attempt count a + i. -/
lemma loadImageWithRetry_wait_eq (outs : List Bool) : ∀ (a i : Nat),
    i < ((loadImageWithRetry a outs).1).length →
    ((loadImageWithRetry a outs).1)[i]? = some (backoffDelay (a + i)) := by
  induction outs with
  | nil => intro a i h; simp [loadImageWithRetry] at h
  | cons ok rest ih =>
    intro a i h
    by_cases hok : ok = true
    · simp [loadImageWithRetry, hok] at h
    · by_cases ha : a < maxRetries
      · simp only [loadImageWithRetry, hok, ha, if_true, if_false,
          Bool.false_eq_true] at h ⊢
        cases i with
        | zero => simp
        | succ i =>
          simp only [List.getElem?_cons_succ, List.length_cons] at h ⊢
          have hrw : a + 1 + i = a + (i + 1) := by omega
          rw [ih (a + 1) i (by omega), hrw]
      · simp [loadImageWithRetry, hok, ha] at h

/-- The head of the wait list, when present, is the delay for the entry
counter. -/
lemma loadImageWithRetry_waits_head (outs : List Bool) (a : Nat) :
    (loadImageWithRetry a outs).1.head? = none ∨
    (loadImageWithRetry a outs).1.head? = some (backoffDelay a) := by
  cases outs with
  | nil => left; rfl
  | cons ok rest =>
    by_cases hok : ok = true
    · left; simp [loadImageWithRetry, hok]
    · by_cases ha : a < maxRetries
      · right; simp [loadImageWithRetry, hok, ha]
      · left; simp [loadImageWithRetry, hok, ha]

/-- Successive backoff waits are non-decreasing. -/
lemma loadImageWithRetry_waits_chain (outs : List Bool) : ∀ a : Nat,
    List.Chain' (· ≤ ·) (loadImageWithRetry a outs).1 := by
  induction outs with
  | nil => intro a; simp [loadImageWithRetry]
  | cons ok rest ih =>
    intro a
    by_cases hok : ok = true
    · simp [loadImageWithRetry, hok]
    · by_cases ha : a < maxRetries
      · simp only [loadImageWithRetry, hok, ha, if_true, if_false,
          Bool.false_eq_true]
        rw [List.chain'_cons']
        refine ⟨?_, ih (a + 1)⟩
        intro b hb
        rcases loadImageWithRetry_waits_head rest (a + 1) with hh | hh
        · rw [hh] at hb; simp at hb
        · rw [hh] at hb
          simp only [Option.mem_def, Option.some.injEq] at hb
          subst hb
          exact backoffDelay_mono (by omega)
      · simp [loadImageWithRetry, hok, ha]

/-- A retry run entered with counter a ≤ maxRetries performs at most
maxRetries + 1 - a materialization attempts. -/
lemma loadImageWithRetry_attempts_le (outs : List Bool) : ∀ a : Nat,
    a ≤ maxRetries →
    (loadImageWithRetry a outs).2.1 ≤ maxRetries + 1 - a := by
  induction outs with
  | nil => intro a _; simp [loadImageWithRetry]
  | cons ok rest ih =>
    intro a ha
    by_cases hok : ok = true
    · simp only [loadImageWithRetry, hok, if_true]
      omega
    · by_cases hlt : a < maxRetries
      · have hrec := ih (a + 1) (by omega)
        simp only [loadImageWithRetry, hok, hlt, if_true, if_false,
          Bool.false_eq_true]
        omega
      · simp only [loadImageWithRetry, hok, hlt, if_false,
          Bool.false_eq_true]
        omega

/-! ## At-most-once reveal lemmas -/

/-- animatedElements only grows. -/
lemma animateElement_animated_mono (s : AnimationManager) (x e : Nat)
    (h : e ∈ s.animatedElements) :
    e ∈ (animateElement s x).1.animatedElements := by
  unfold animateElement
  by_cases hx : x ∈ s.animatedElements
  · rw [if_pos hx]; exact h
  · rw [if_neg hx]; exact List.mem_cons_of_mem _ h

/-- An already-animated element never fires again. -/
lemma revealCount_of_animated (evts : List Nat) :
    ∀ (s : AnimationManager) (e : Nat),
    e ∈ s.animatedElements → revealCount s evts e = 0 := by
  induction evts with
  | nil => intro s e _; rfl
  | cons x rest ih =>
    intro s e he
    simp only [revealCount]
    rw [ih _ _ (animateElement_animated_mono s x e he)]
    have hneg : ¬((animateElement s x).2 = true ∧ x = e) := by
      rintro ⟨hf, rfl⟩
      unfold animateElement at hf
      rw [if_pos he] at hf
      simp at hf
    rw [if_neg hneg]

/-- The reveal fires at most once for any element over any event run. -/
lemma revealCount_le_one (evts : List Nat) :
    ∀ (s : AnimationManager) (e : Nat), revealCount s evts e ≤ 1 := by
  induction evts with
  | nil => intro s e; simp [revealCount]
  | cons x rest ih =>
    intro s e
    simp only [revealCount]
    by_cases hc : (animateElement s x).2 = true ∧ x = e
    · rw [if_pos hc]
      obtain ⟨hf, rfl⟩ := hc
      have he : x ∈ (animateElement s x).1.animatedElements := by
        unfold animateElement at hf ⊢
        by_cases hm : x ∈ s.animatedElements
        · rw [if_pos hm] at hf; simp at hf
        · rw [if_neg hm]; exact List.mem_cons_self x _
      rw [revealCount_of_animated rest _ _ he]
    · rw [if_neg hc]
      simpa using ih (animateElement s x).1 e

/-- Animated elements are no longer observed, along any event run. -/
lemma runIntersections_animated_not_observed (evts : List Nat) :
    ∀ s : AnimationManager,
    (∀ e, e ∈ s.animatedElements → e ∉ s.observed) →
    ∀ e, e ∈ (runIntersections s evts).animatedElements →
      e ∉ (runIntersections s evts).observed := by
  induction evts with
  | nil => intro s h e; exact h e
  | cons x rest ih =>
    intro s h
    simp only [runIntersections]
    apply ih
    intro e he
    unfold animateElement at he ⊢
    by_cases hm : x ∈ s.animatedElements
    · rw [if_pos hm] at he ⊢; exact h e he
    · rw [if_neg hm] at he ⊢
      rcases List.mem_cons.mp he with rfl | he2
      · intro hmem
        have := (List.mem_filter.mp hmem).2
        simp at this
      · intro hmem
        exact h e he2 (List.mem_filter.mp hmem).1

/-- Unobserved cards stay unobserved. -/
lemma cardIntersection_observed_subset (s : FeatureCards) (x e : Nat)
    (h : e ∉ s.observed) : e ∉ (cardIntersection s x).1.observed := by
  unfold cardIntersection
  by_cases hx : x ∈ s.observed
  · rw [if_pos hx]
    intro hmem
    exact h (List.mem_filter.mp hmem).1
  · rw [if_neg hx]; exact h

/-- An unobserved card never fires. -/
lemma cardRevealCount_of_not_observed (evts : List Nat) :
    ∀ (s : FeatureCards) (e : Nat),
    e ∉ s.observed → cardRevealCount s evts e = 0 := by
  induction evts with
  | nil => intro s e _; rfl
  | cons x rest ih =>
    intro s e he
    simp only [cardRevealCount]
    rw [ih _ _ (cardIntersection_observed_subset s x e he)]
    have hneg : ¬((cardIntersection s x).2 = true ∧ x = e) := by
      rintro ⟨hf, rfl⟩
      unfold cardIntersection at hf
      rw [if_neg he] at hf
      simp at hf
    rw [if_neg hneg]

/-- The card reveal fires at most once over any event run. -/
lemma cardRevealCount_le_one (evts : List Nat) :
    ∀ (s : FeatureCards) (e : Nat), cardRevealCount s evts e ≤ 1 := by
  induction evts with
  | nil => intro s e; simp [cardRevealCount]
  | cons x rest ih =>
    intro s e
    simp only [cardRevealCount]
    by_cases hc : (cardIntersection s x).2 = true ∧ x = e
    · rw [if_pos hc]
      obtain ⟨hf, rfl⟩ := hc
      have hobs : x ∉ (cardIntersection s x).1.observed := by
        unfold cardIntersection
        by_cases hx : x ∈ s.observed
        · rw [if_pos hx]
          intro hmem
          have := (List.mem_filter.mp hmem).2
          simp at this
        · rw [if_neg hx]; exact hx
      rw [cardRevealCount_of_not_observed rest _ _ hobs]
    · rw [if_neg hc]
      simpa using ih (cardIntersection s x).1 e

/-- Mapping every entry of a Bool list to true yields replicate. -/
lemma map_true_replicate (l : List Bool) :
    l.map (fun _ => true) = List.replicate l.length true := by
  induction l with
  | nil => rfl
  | cons b rest ih => simp [ih, List.replicate_succ]

/-! ## Claim theorems -/

/-- C1 counterexample: with maxRetries = 3 and every materialization
attempt failing, loadImageWithRetry performs 4 = maxRetries + 1
materialization attempts, so attempt number maxRetries + 1 does occur in
the code, contrary to the claim. -/
theorem C1_attempt_count_counterexample :
    (loadImageWithRetry 0 (List.replicate 10 false)).2.1 = maxRetries + 1 ∧
    ¬ (loadImageWithRetry 0 (List.replicate 10 false)).2.1 ≤ maxRetries := by
  decide

/-- C1 (amended): for an element whose materialization keeps failing, the
wait at position i of the inserted-wait sequence (the wait before
materialization attempt i + 2, attempts numbered from 1) equals
min(backoffBase * 2 ^ i, backoffCeiling), successive waits are
non-decreasing, and materialization attempt number maxRetries + 2 never
occurs: at most maxRetries + 1 attempts are performed. -/
theorem C1_backoff_schedule (outs : List Bool) (i : Nat)
    (h : i < ((loadImageWithRetry 0 outs).1).length) :
    ((loadImageWithRetry 0 outs).1)[i]? =
      some (min (backoffBase * 2 ^ i) backoffCeiling) ∧
    List.Chain' (· ≤ ·) (loadImageWithRetry 0 outs).1 ∧
    (loadImageWithRetry 0 outs).2.1 ≤ maxRetries + 1 := by
  refine ⟨?_, loadImageWithRetry_waits_chain outs 0,
    by simpa using loadImageWithRetry_attempts_le outs 0 (by norm_num)⟩
  simpa [backoffDelay] using loadImageWithRetry_wait_eq outs 0 i h

/-- Witness for C1: the all-fail run has a first wait of 1000 ms. -/
theorem C1_backoff_schedule_witness :
    0 < ((loadImageWithRetry 0 (List.replicate 10 false)).1).length ∧
    (((loadImageWithRetry 0 (List.replicate 10 false)).1)[0]? =
        some (min (backoffBase * 2 ^ 0) backoffCeiling) ∧
      List.Chain' (· ≤ ·) (loadImageWithRetry 0 (List.replicate 10 false)).1 ∧
      (loadImageWithRetry 0 (List.replicate 10 false)).2.1 ≤ maxRetries + 1) :=
  ⟨by decide, C1_backoff_schedule (List.replicate 10 false) 0 (by decide)⟩

/-- C2: over any run of entering-intersection events, the reveal fires at
most once per element in the AnimationManager (guarded by
animatedElements), a first firing removes the element from observation,
and the features.js card observer also fires at most once per card. -/
theorem C2_at_most_once_reveal (regs evts : List Nat) (e : Nat) :
    revealCount (initAnimationManager regs) evts e ≤ 1 ∧
    (e ∈ (runIntersections (initAnimationManager regs) evts).animatedElements →
      e ∉ (runIntersections (initAnimationManager regs) evts).observed) ∧
    cardRevealCount { observed := regs, visible := [] } evts e ≤ 1 := by
  refine ⟨revealCount_le_one evts _ e, ?_, cardRevealCount_le_one evts _ e⟩
  refine runIntersections_animated_not_observed evts _ ?_ e
  intro f hf
  simp [initAnimationManager] at hf

/-- Witness for C2 at a concrete registration list and event run. -/
theorem C2_at_most_once_reveal_witness :
    revealCount (initAnimationManager [0, 1, 2]) [0, 0, 1, 0] 0 ≤ 1 ∧
    (0 ∈ (runIntersections (initAnimationManager [0, 1, 2])
          [0, 0, 1, 0]).animatedElements →
      0 ∉ (runIntersections (initAnimationManager [0, 1, 2])
          [0, 0, 1, 0]).observed) ∧
    cardRevealCount { observed := [0, 1, 2], visible := [] } [0, 0, 1, 0] 0 ≤ 1 :=
  C2_at_most_once_reveal [0, 1, 2] [0, 0, 1, 0] 0

/-- C3 counterexample: while the first load is still pending the element
is not yet in loadedImages, so a second loadImage call does not return
immediately: it mutates the state again and a second materialization is in
flight. -/
theorem C3_pending_load_counterexample :
    (loadImage (loadImage freshImage)).inFlight = 2 ∧
    loadImage (loadImage freshImage) ≠ loadImage freshImage := by
  decide

/-- C3 (amended): loadImage is idempotent only against completed loads: a
call on an element already in loadedImages returns immediately with no
state change, while a call on an element not yet loaded (including one
whose load is still pending) starts one more materialization attempt. -/
theorem C3_idempotent_when_loaded (s : LoadState) :
    (s.inLoadedImages = true → loadImage s = s) ∧
    (s.inLoadedImages = false → (loadImage s).inFlight = s.inFlight + 1) := by
  constructor
  · intro h; simp [loadImage, h]
  · intro h; simp [loadImage, h]

/-- Witness for C3 at a loaded element. -/
theorem C3_idempotent_when_loaded_witness :
    ((onImageLoaded freshImage).inLoadedImages = true →
      loadImage (onImageLoaded freshImage) = onImageLoaded freshImage) ∧
    ((onImageLoaded freshImage).inLoadedImages = false →
      (loadImage (onImageLoaded freshImage)).inFlight =
        (onImageLoaded freshImage).inFlight + 1) :=
  C3_idempotent_when_loaded (onImageLoaded freshImage)

/-- C4: evaluation at the failing input.  After LazyLoader.destroy the
pending backoff sleep timer is still pending, the MutationObserver is
still connected, a matching node insertion makes its callback dereference
the nulled observer and throw, and the resumed backoff continuation
mutates the element state. -/
theorem C4_destroy_not_clean :
    (midBackoffState.destroy).pendingSleepTimers = 1 ∧
    (midBackoffState.destroy).mutationObserverConnected = true ∧
    mutationCallbackNode midBackoffState.destroy true =
      Except.error ("TypeError: Cannot read properties of null") ∧
    (backoffResume midBackoffState.destroy [true]).img.loadedClass = true ∧
    (backoffResume midBackoffState.destroy [true]).img ≠
      (midBackoffState.destroy).img := by
  refine ⟨rfl, rfl, rfl, rfl, by decide⟩

/-- C5: the step at ordinal i of the construction-time steps array is
scheduled at i * STEP_ANIMATION_DELAY, and its paired connector, when one
exists at that index, activates CONNECTOR_ANIMATION_DELAY later. -/
theorem C5_stagger_schedule (n m i : Nat) (h : i < n) :
    (triggerStepAnimations n m)[i]? =
      some { stepTime := i * STEP_ANIMATION_DELAY,
             connectorTime :=
               if i < m then
                 some (i * STEP_ANIMATION_DELAY + CONNECTOR_ANIMATION_DELAY)
               else none } := by
  simp [triggerStepAnimations, animateStepSchedule, List.getElem?_map,
    List.getElem?_range, h]

/-- Witness for C5: the second of three steps with two connectors. -/
theorem C5_stagger_schedule_witness :
    1 < 3 ∧
    (triggerStepAnimations 3 2)[1]? =
      some { stepTime := 1 * STEP_ANIMATION_DELAY,
             connectorTime :=
               if 1 < 2 then
                 some (1 * STEP_ANIMATION_DELAY + CONNECTOR_ANIMATION_DELAY)
               else none } :=
  ⟨by decide, C5_stagger_schedule 3 2 1 (by decide)⟩

/-- C6: with reduced motion active at construction every step is marked
visible immediately and no timer is pending; and a preference change to
reduced motion while the run is animating completes every still-pending
step, animated marker and connector immediately. -/
theorem C6_reduced_motion_eager (n m : Nat) (st : Bool) (s : WorkflowState)
    (hA : s.isAnimating = true) :
    (constructWorkflow n m st true).stepsVisible = List.replicate n true ∧
    (constructWorkflow n m st true).pendingTimeoutCount = 0 ∧
    (motionChange s true).stepsVisible =
      List.replicate s.stepsVisible.length true ∧
    (motionChange s true).stepsAnimated =
      List.replicate s.stepsAnimated.length true ∧
    (motionChange s true).connectorsActive =
      List.replicate s.connectorsActive.length true := by
  cases st <;>
    exact ⟨by simp [constructWorkflow, skipAnimations, List.map_replicate],
      rfl,
      by simp [motionChange, skipAnimations, hA, map_true_replicate],
      by simp [motionChange, skipAnimations, hA, map_true_replicate],
      by simp [motionChange, skipAnimations, hA, map_true_replicate]⟩

/-- Witness for C6: five steps, four connectors, mid-animation state. -/
theorem C6_reduced_motion_eager_witness :
    (constructWorkflow 5 4 false true).stepsVisible = List.replicate 5 true ∧
    (constructWorkflow 5 4 false true).pendingTimeoutCount = 0 ∧
    (motionChange animatingState true).stepsVisible =
      List.replicate animatingState.stepsVisible.length true ∧
    (motionChange animatingState true).stepsAnimated =
      List.replicate animatingState.stepsAnimated.length true ∧
    (motionChange animatingState true).connectorsActive =
      List.replicate animatingState.connectorsActive.length true :=
  C6_reduced_motion_eager 5 4 false animatingState rfl

/-- C7 counterexample: in the lazy-loading module, loading an element with
no data-src and no data-srcset is not a no-op: the rejection is retried
maxRetries times (4 attempts in all) and the element ends with the error
class set, its state flags changed. -/
theorem C7_missing_ref_counterexample :
    (loadImageRun noRefImage (List.replicate 10 true)).2 = maxRetries + 1 ∧
    (loadImageRun noRefImage (List.replicate 10 true)).1.errorClass = true ∧
    (loadImageRun noRefImage (List.replicate 10 true)).1 ≠ noRefImage := by
  decide

/-- C7 (amended): the performance-module loader treats a missing
deferred-resource reference as a per-element no-op (logged, no retry, no
state change), while the lazy-loading module treats it as a load failure:
it performs maxRetries + 1 materialization attempts and marks the element
errored. -/
theorem C7_missing_ref_behavior (p : PerfImage)
    (h1 : p.hasDataSrc = false) (h2 : p.hasDataSrcset = false) :
    perfLoadImage p = (p, false) ∧
    (loadImageRun noRefImage (List.replicate 10 true)).2 = maxRetries + 1 ∧
    (loadImageRun noRefImage (List.replicate 10 true)).1.errorClass = true := by
  refine ⟨by simp [perfLoadImage, h1, h2], by decide, by decide⟩

/-- Witness for C7 at a concrete reference-free element. -/
theorem C7_missing_ref_behavior_witness :
    perfLoadImage noRefPerfImage = (noRefPerfImage, false) ∧
    (loadImageRun noRefImage (List.replicate 10 true)).2 = maxRetries + 1 ∧
    (loadImageRun noRefImage (List.replicate 10 true)).1.errorClass = true :=
  C7_missing_ref_behavior noRefPerfImage rfl rfl

/-- C8 counterexample: a re-triggered load on an already-errored element
adds the loading class without clearing the error class, and a subsequent
success leaves loaded and errored both set: two flags are true at once. -/
theorem C8_retrigger_counterexample :
    mutexFlags (onImageError (loadImage freshImage)) ∧
    ¬ mutexFlags (loadImage (onImageError (loadImage freshImage))) ∧
    flagCount (onImageLoaded (loadImage (onImageError (loadImage freshImage)))) = 2 := by
  decide

/-- C8 (amended): along the normal lifecycle of an element that starts
with none of the three flags set, every loader operation preserves the
mutual exclusion of loading, loaded and errored; the exclusion is not
preserved by a re-triggered load on an already-errored element. -/
theorem C8_flag_exclusion (s : LoadState) (h1 : s.loadingClass = false)
    (h2 : s.loadedClass = false) (h3 : s.errorClass = false) :
    mutexFlags s ∧ mutexFlags (loadImage s) ∧
    mutexFlags (onImageLoaded (loadImage s)) ∧
    mutexFlags (onImageError (loadImage s)) := by
  by_cases hm : s.inLoadedImages = true <;>
    simp [mutexFlags, flagCount, loadImage, onImageLoaded, onImageError,
      h1, h2, h3, hm]

/-- Witness for C8 at a fresh element. -/
theorem C8_flag_exclusion_witness :
    mutexFlags freshImage ∧ mutexFlags (loadImage freshImage) ∧
    mutexFlags (onImageLoaded (loadImage freshImage)) ∧
    mutexFlags (onImageError (loadImage freshImage)) :=
  C8_flag_exclusion freshImage rfl rfl rfl

/-- C9: evaluation at the failing input.  A matching element already in
this.images that is re-inserted directly as an added node is observed a
second time (the direct branch has no images.has guard), while the nested
descendant branch correctly skips an already-tracked element. -/
theorem C9_direct_insert_double_observe :
    ((mutationAdded (observeImages emptyWatch [5]) 5 true []).observeCalls).count 5
      = 2 ∧
    ((observeImages emptyWatch [5]).observeCalls).count 5 = 1 ∧
    (mutationAdded (observeImages emptyWatch [5]) 5 false [5]).observeCalls =
      (observeImages emptyWatch [5]).observeCalls := by
  decide

/-- C10: constructing with a missing section throws the required-element
message, the module-level initializer returns null instead of propagating
any failure, and construction succeeds for every non-null section. -/
theorem C10_constructor_guard :
    workflowControllerNew none =
      Except.error ("Workflow section element is required") ∧
    initWorkflowAnimationsModel none = none ∧
    ∀ sec : WorkflowSection,
      workflowControllerNew (some sec) =
        Except.ok (constructWorkflow sec.numSteps sec.numConnectors
          sec.staticFlag sec.reducedMotion) ∧
      initWorkflowAnimationsModel (some sec) =
        some (constructWorkflow sec.numSteps sec.numConnectors
          sec.staticFlag sec.reducedMotion) :=
  ⟨rfl, rfl, fun _ => ⟨rfl, rfl⟩⟩
